import Mathlib

/-!
Shallow embedding of the token-scanning core of
`custom_components/google_vision/sensor.py` — the method
`Gvision.process_image` (lines 183–243) — together with theorems checking the
natural-language specification of the extractor against it.

Modelling conventions:
* a Python string is its sequence of Unicode code points (`List Char`);
* the IEEE-754 arithmetic `float(value) / (10.0 ** k)` is modelled exactly in
  `ℚ` (in these code paths the numerator is always the integer value of a digit
  string and the divisor a power of ten, so the rational value is the intended
  reading of the computation);
* an exception escaping an expression (`ValueError` from `float`) is modelled
  by `Except.error ()`;
* `str.lower` is modelled on its ASCII behaviour (`Char.toLower`), which
  coincides with Python for all ASCII keywords and tokens used here.
-/

deriving instance DecidableEq for Except

/-- A Python string, modelled as its sequence of Unicode code points. -/
abbrev PyStr := List Char

/-- Decimal-digit value of a character — Unicode category Nd, the characters
accepted *and* parsed by Python's `int`/`float` conversions.  Modelled on the
ASCII digits plus representative non-ASCII decimal-digit ranges (Arabic-Indic,
Extended Arabic-Indic, Devanagari, fullwidth); the full Unicode table contains
further ranges of exactly the same kind, which nothing in this development
depends on. -/
def decDigitVal? (c : Char) : Option Nat :=
  if c.isDigit then some (c.toNat - 48)
  else if 0x660 ≤ c.toNat ∧ c.toNat ≤ 0x669 then some (c.toNat - 0x660)
  else if 0x6F0 ≤ c.toNat ∧ c.toNat ≤ 0x6F9 then some (c.toNat - 0x6F0)
  else if 0x966 ≤ c.toNat ∧ c.toNat ≤ 0x96F then some (c.toNat - 0x966)
  else if 0xFF10 ≤ c.toNat ∧ c.toNat ≤ 0xFF19 then some (c.toNat - 0xFF10)
  else none

/-- Characters that are numeric for Python's `str.isnumeric` (Unicode
categories No and Nl, `Numeric_Type` Digit or Numeric) without being decimal
digits: `int`/`float` conversion raises `ValueError` on them.  Modelled on the
Latin-1 superscripts and vulgar fractions; the full Unicode table contains
further characters of exactly the same kind. -/
def nonDecimalNumericChar (c : Char) : Bool :=
  c == '¹' || c == '²' || c == '³' || c == '¼' || c == '½' || c == '¾'

/-- A character counted by Python's `str.isnumeric`. -/
def pyNumericChar (c : Char) : Bool :=
  (decDigitVal? c).isSome || nonDecimalNumericChar c

/-- Python `value.isnumeric()`: non-empty and every character numeric. -/
def pyIsNumeric (s : PyStr) : Bool :=
  !s.isEmpty && s.all pyNumericChar

/-- Integer value of a string of decimal digits (most significant first). -/
def digitsVal (s : PyStr) : Nat :=
  s.foldl (fun a c => 10 * a + (decDigitVal? c).getD 0) 0

/-- Python `float(value)` as applied in `process_image`, i.e. to a string that
already passed `isnumeric()` (hence no sign, point or whitespace): it succeeds
with the integer value exactly when every character is a decimal digit, and
raises `ValueError` (here `none`) when some character is numeric-but-not-decimal
(e.g. a vulgar fraction or superscript). -/
def pyFloatOfNumeric (s : PyStr) : Option ℚ :=
  if !s.isEmpty && s.all (fun c => (decDigitVal? c).isSome) then
    some ((digitsVal s : ℚ))
  else none

/-- `re.sub('[^0-9]', '', s)` (sensor.py lines 202, 215): keep only the ASCII
digits `0`–`9`. -/
def stripNonDigits (s : PyStr) : PyStr :=
  s.filter fun c => c.isDigit

/-- Python `s.lower()`, modelled on its ASCII behaviour. -/
def pyLower (s : PyStr) : PyStr :=
  s.map Char.toLower

/-- Python `s.startswith(p)`. -/
def pyStartsWith (s p : PyStr) : Bool :=
  p.isPrefixOf s

/-- The literal string compared against `self._keyword_pos` on line 199. -/
def afterStr : PyStr := ['a', 'f', 't', 'e', 'r']

/-- The literal string compared against `self._keyword_pos` on line 212. -/
def beforeStr : PyStr := ['b', 'e', 'f', 'o', 'r', 'e']

/-- The digit-validation block of `process_image`, written out verbatim three
times in the source, once per scan mode (sensor.py lines 203–209, 216–222 and
229–235): given the candidate string `value`,

* `none` — `value` fails `isnumeric()` or has a non-matching length; no match,
  scanning continues (the `else` diagnostic on lines 210–211/223–224 only logs);
* `some (Except.ok q)` — a validated match of scaled value `q`, namely
  `float(value) / 10.0 ** decimals` at the expected length and
  `float(value) / 10.0 ** (decimals - 1)` one digit short (taken only when
  `decimals > 0`);
* `some (Except.error ())` — the branch is entered but `float(value)` raises
  `ValueError`, possible because `str.isnumeric` also accepts numeric
  characters that are not decimal digits. -/
def tryCandidate (expected decimals : Nat) (value : PyStr) : Option (Except Unit ℚ) :=
  if pyIsNumeric value then
    if value.length = expected then
      some (match pyFloatOfNumeric value with
            | some q => Except.ok (q / 10 ^ decimals)
            | none => Except.error ())
    else if 0 < decimals ∧ value.length + 1 = expected then
      some (match pyFloatOfNumeric value with
            | some q => Except.ok (q / 10 ^ (decimals - 1))
            | none => Except.error ())
    else none
  else none

/-- Projection keeping only a validated match. -/
def okProj : Option (Except Unit ℚ) → Option ℚ
  | some (Except.ok q) => some q
  | some (Except.error _) => none
  | none => none

/-- The candidate value obtained from a token in the two keyword modes:
non-digits stripped, then validated (never raises, see
`tryCandidate_strip_ne_error`). -/
def tryStripped (expected decimals : Nat) (s : PyStr) : Option ℚ :=
  okProj (tryCandidate expected decimals (stripNonDigits s))

/-- The scan loop of `process_image` specialised to
`self._keyword_pos == "after"` (sensor.py lines 199–211 plus the
`prev_obj = obj` update on line 237).  The second argument is the `prev_obj`
cursor.  `keyword_obj` is never read in this mode and is omitted.  The mode
dispatch is hoisted out of the loop body, which is sound because
`self._keyword_pos` does not change during the loop. -/
def scanAfter (kw : PyStr) (expected decimals : Nat) :
    List PyStr → Option PyStr → Except Unit (Option ℚ)
  | [], _ => Except.ok none
  | obj :: rest, prevObj =>
    match prevObj with
    | some p =>
      if pyStartsWith (pyLower obj) kw then
        match tryCandidate expected decimals (stripNonDigits p) with
        | some (Except.ok q) => Except.ok (some q)
        | some (Except.error u) => Except.error u
        | none => scanAfter kw expected decimals rest (some obj)
      else scanAfter kw expected decimals rest (some obj)
    | none => scanAfter kw expected decimals rest (some obj)

/-- The scan loop of `process_image` specialised to
`self._keyword_pos == "before"` (sensor.py lines 212–226).  The second argument
is the `keyword_obj` anchor; `prev_obj` is assigned but never read in this mode
and is omitted. -/
def scanBefore (kw : PyStr) (expected decimals : Nat) :
    List PyStr → Option PyStr → Except Unit (Option ℚ)
  | [], _ => Except.ok none
  | obj :: rest, keywordObj =>
    match keywordObj with
    | some a =>
      match tryCandidate expected decimals (stripNonDigits obj) with
      | some (Except.ok q) => Except.ok (some q)
      | some (Except.error u) => Except.error u
      | none =>
        scanBefore kw expected decimals rest
          (if pyStartsWith (pyLower obj) kw then some obj else some a)
    | none =>
      scanBefore kw expected decimals rest
        (if pyStartsWith (pyLower obj) kw then some obj else none)

/-- The scan loop of `process_image` in the remaining (no-keyword) case: the
`else` branch on lines 227–235, testing the token's raw `description`.
Neither `prev_obj` nor `keyword_obj` is read. -/
def scanPlain (expected decimals : Nat) : List PyStr → Except Unit (Option ℚ)
  | [] => Except.ok none
  | obj :: rest =>
    match tryCandidate expected decimals obj with
    | some (Except.ok q) => Except.ok (some q)
    | some (Except.error u) => Except.error u
    | none => scanPlain expected decimals rest

/-- The whole scan of `process_image` (lines 194–237): dispatch on the stored
`self._keyword_pos` exactly as the chain
`if self._keyword_pos == "after" … elif self._keyword_pos == "before" … else …`
does, starting from `index = None`, `keyword_obj = None`, `prev_obj = None`.
`kw` is the stored `self._keyword` (already lowercased by `__init__`); it is
read only in the two keyword modes. -/
def scan (kw : PyStr) (kwPos : Option PyStr) (expected decimals : Nat)
    (objects : List PyStr) : Except Unit (Option ℚ) :=
  if kwPos = some afterStr then scanAfter kw expected decimals objects none
  else if kwPos = some beforeStr then scanBefore kw expected decimals objects none
  else scanPlain expected decimals objects

/-- The mutable fields of the `Gvision` entity touched by `process_image`:
`self._state` (mirrored by `self._attr_native_value`) and
`self._last_detection`.  The timestamp written on a successful match is the
wall-clock `dt_util.now()`, modelled as an opaque `Nat` supplied by the
caller. -/
structure SensorState where
  state : Option ℚ
  lastDetection : Option Nat
deriving DecidableEq

/-- Outcome of one `process_image` call: the entity state after the call and
whether the call terminated by raising (`ValueError` escaping from `float`). -/
structure ProcOutcome where
  st : SensorState
  raised : Bool
deriving DecidableEq

/-- `Gvision.process_image` (sensor.py lines 183–243) as a state transition:
clear `self._state` (line 185), return early when the OCR response has no
annotations (lines 191–192), run the scan, and publish the result only when
`index` is truthy (`if not index: return`, lines 239–240) — a `None` *or zero*
`index` leaves the cleared state in place.  On success both the state and the
last-detection timestamp are written (lines 242–243).  If the scan raises, the
exception escapes after the state was already cleared. -/
def processImage (kw : PyStr) (kwPos : Option PyStr) (expected decimals : Nat)
    (st : SensorState) (now : Nat) (objects : List PyStr) : ProcOutcome :=
  let cleared : SensorState := { st with state := none }
  if objects.length = 0 then ⟨cleared, false⟩
  else
    match scan kw kwPos expected decimals objects with
    | Except.error _ => ⟨cleared, true⟩
    | Except.ok none => ⟨cleared, false⟩
    | Except.ok (some v) =>
      if v = 0 then ⟨cleared, false⟩ else ⟨⟨some v, some now⟩, false⟩

/-- Modelled from the spec: the no-keyword mode as §4 words it — "scan tokens
in order; for each token, test whether its raw text (not stripped of non-digit
characters) is itself a pure digit string and apply the digit-validation rule.
Stop at the first match, in scan order; return absent if none match" — with
§4's digit-validation rule (`integer(d) / 10^decimals` at the expected length,
`integer(d) / 10^(decimals-1)` one digit short when `decimals > 0`) and §4's
numeric predicate ("non-empty and composed solely of decimal-digit
characters").  Used as the comparison point for the refinement claim about the
no-keyword mode. -/
def specCandidate (expected decimals : Nat) (t : PyStr) : Option ℚ :=
  if !t.isEmpty && t.all (fun c => (decDigitVal? c).isSome) then
    if t.length = expected then some ((digitsVal t : ℚ) / 10 ^ decimals)
    else if 0 < decimals ∧ t.length + 1 = expected then
      some ((digitsVal t : ℚ) / 10 ^ (decimals - 1))
    else none
  else none

/-- Modelled from the spec (continued): the first `specCandidate` match in scan
order, or absent. -/
def specNoKeyword (expected decimals : Nat) (tokens : List PyStr) : Option ℚ :=
  tokens.findSome? (specCandidate expected decimals)

/-- Index of the first element satisfying `p`. -/
def firstIdx (p : α → Bool) : List α → Option Nat
  | [] => none
  | a :: l => if p a then some 0 else (firstIdx p l).map (· + 1)

/-- Where an After-mode result comes from: there is a keyword-prefixed token at
some position `i ≥ 1` whose immediately preceding token strips and validates to
the result, and at every earlier keyword-prefixed position with a preceding
token the stripped candidate fails validation.  (A keyword-prefixed token at
position 0 has no preceding token and can never be a source.) -/
def AfterSourced (kw : PyStr) (expected decimals : Nat)
    (tokens : List PyStr) (v : ℚ) : Prop :=
  ∃ i a b, 0 < i ∧ tokens[i - 1]? = some a ∧ tokens[i]? = some b ∧
    pyStartsWith (pyLower b) kw = true ∧ tryStripped expected decimals a = some v ∧
    ∀ j a2 b2, 0 < j → j < i → tokens[j - 1]? = some a2 → tokens[j]? = some b2 →
      pyStartsWith (pyLower b2) kw = true → tryStripped expected decimals a2 = none

/-- `okProj` recovers a match exactly from an `Except.ok` candidate outcome. -/
theorem okProj_eq_some_iff (o : Option (Except Unit ℚ)) (v : ℚ) :
    okProj o = some v ↔ o = some (Except.ok v) := by
  cases o with
  | none => simp [okProj]
  | some r => cases r with
    | ok q => simp [okProj]
    | error u => simp [okProj]

/-- An ASCII digit is a decimal digit. -/
theorem decDigitVal?_isSome_of_isDigit {c : Char} (h : c.isDigit = true) :
    (decDigitVal? c).isSome = true := by
  simp [decDigitVal?, h]

/-- Every character surviving `re.sub('[^0-9]','',·)` is a decimal digit. -/
theorem stripNonDigits_all_decimal (s : PyStr) :
    (stripNonDigits s).all (fun c => (decDigitVal? c).isSome) = true := by
  simp only [stripNonDigits, List.all_eq_true, List.mem_filter]
  intro c hc
  exact decDigitVal?_isSome_of_isDigit (by simpa using hc.2)

/-- A decimal digit counts as numeric for `str.isnumeric`. -/
theorem pyNumericChar_of_decimal {c : Char} (h : (decDigitVal? c).isSome = true) :
    pyNumericChar c = true := by
  simp [pyNumericChar, h]

/-- A non-empty string of decimal digits passes `str.isnumeric`. -/
theorem pyIsNumeric_of_decimal (t : PyStr)
    (h : (!t.isEmpty && t.all fun c => (decDigitVal? c).isSome) = true) :
    pyIsNumeric t = true := by
  simp only [Bool.and_eq_true, List.all_eq_true] at h
  simp only [pyIsNumeric, Bool.and_eq_true, List.all_eq_true]
  exact ⟨h.1, fun c hc => pyNumericChar_of_decimal (h.2 c hc)⟩

/-- On a numeric all-decimal string, `float` succeeds with the digit value. -/
theorem pyFloatOfNumeric_of_decimal (t : PyStr)
    (hne : (!t.isEmpty) = true)
    (hdec : t.all (fun c => (decDigitVal? c).isSome) = true) :
    pyFloatOfNumeric t = some ((digitsVal t : ℚ)) := by
  simp [pyFloatOfNumeric, hne, hdec]

/-- On a stripped candidate the validation never raises: it is `okProj`'s
value boxed in `Except.ok`. -/
theorem tryCandidate_strip_eq (e d : Nat) (s : PyStr) :
    tryCandidate e d (stripNonDigits s) = (tryStripped e d s).map Except.ok := by
  unfold tryStripped
  cases h : pyIsNumeric (stripNonDigits s) with
  | false => simp [tryCandidate, h, okProj]
  | true =>
    have hne : (!(stripNonDigits s).isEmpty) = true := by
      simp only [pyIsNumeric, Bool.and_eq_true] at h
      exact h.1
    have hfl := pyFloatOfNumeric_of_decimal (stripNonDigits s) hne (stripNonDigits_all_decimal s)
    by_cases hl : (stripNonDigits s).length = e
    · simp [tryCandidate, h, hfl, hl, okProj]
    · by_cases hsh : 0 < d ∧ (stripNonDigits s).length + 1 = e
      · simp [tryCandidate, h, hfl, hl, hsh, okProj]
      · simp [tryCandidate, h, hfl, hl, hsh, okProj]

/-- Validation of a stripped candidate cannot raise. -/
theorem tryCandidate_strip_ne_error (e d : Nat) (s : PyStr) (u : Unit) :
    tryCandidate e d (stripNonDigits s) ≠ some (Except.error u) := by
  rw [tryCandidate_strip_eq]
  cases tryStripped e d s <;> simp

/-- Prepending a token `t` to an After-mode source description: the new leading
pair `(t, b)` must itself fail as a source (keyword-prefixed `b` with a
non-validating stripped `t`). -/
theorem AfterSourced.lift {kw : PyStr} {e d : Nat} {t b : PyStr}
    {rest : List PyStr} {v : ℚ}
    (h : AfterSourced kw e d (b :: rest) v)
    (hsk : pyStartsWith (pyLower b) kw = true → tryStripped e d t = none) :
    AfterSourced kw e d (t :: b :: rest) v := by
  obtain ⟨i, a, b2, hi, ha, hb2, hpw, hval, hmin⟩ := h
  obtain ⟨i0, rfl⟩ : ∃ i0, i = i0 + 1 := ⟨i - 1, by omega⟩
  refine ⟨i0 + 2, a, b2, by omega, ?_, ?_, hpw, hval, ?_⟩
  · simpa using ha
  · simpa using hb2
  · intro j a2 b2' hj0 hji ha2 hb2' hp
    obtain ⟨j0, rfl⟩ : ∃ j0, j = j0 + 1 := ⟨j - 1, by omega⟩
    cases j0 with
    | zero =>
      obtain rfl : t = a2 := by simpa using ha2
      obtain rfl : b = b2' := by simpa using hb2'
      exact hsk hp
    | succ j1 =>
      refine hmin (j1 + 1) a2 b2' (by omega) (by omega) ?_ ?_ hp
      · simpa using ha2
      · simpa using hb2'

/-- A value produced by the After-mode loop started with cursor `some t` is
sourced as `AfterSourced` describes, inside `t :: ts`. -/
theorem scanAfter_sourced (kw : PyStr) (e d : Nat) :
    ∀ (ts : List PyStr) (t : PyStr) (v : ℚ),
      scanAfter kw e d ts (some t) = Except.ok (some v) →
      AfterSourced kw e d (t :: ts) v := by
  intro ts
  induction ts with
  | nil => intro t v h; simp [scanAfter] at h
  | cons b rest ih =>
    intro t v h
    by_cases hb : pyStartsWith (pyLower b) kw = true
    · rcases htc : tryCandidate e d (stripNonDigits t) with _ | r
      · have h2 : scanAfter kw e d rest (some b) = Except.ok (some v) := by
          simpa [scanAfter, hb, htc] using h
        exact (ih b v h2).lift (fun _ => by simp [tryStripped, htc, okProj])
      · cases r with
        | ok q =>
          have hqv : q = v := by simpa [scanAfter, hb, htc] using h
          subst hqv
          refine ⟨1, t, b, Nat.one_pos, by simp, by simp, hb, ?_, ?_⟩
          · simp [tryStripped, htc, okProj]
          · intro j a2 b2 hj0 hji _ _ _
            exact absurd hji (by omega)
        | error u => exact absurd htc (tryCandidate_strip_ne_error e d t u)
    · have h2 : scanAfter kw e d rest (some b) = Except.ok (some v) := by
        simpa [scanAfter, hb] using h
      exact (ih b v h2).lift (fun hpb => absurd hpb hb)

/-- Once the `keyword_obj` anchor is set in Before mode it never becomes unset,
so the rest of the scan is just a first-validating-candidate search; which
token the anchor holds is irrelevant. -/
theorem scanBefore_anchored (kw : PyStr) (e d : Nat) :
    ∀ (ts : List PyStr) (a : PyStr),
      scanBefore kw e d ts (some a) =
        Except.ok (ts.findSome? fun t => tryStripped e d t) := by
  intro ts
  induction ts with
  | nil => intro a; simp [scanBefore]
  | cons t rest ih =>
    intro a
    rcases hts : tryStripped e d t with _ | q
    · have htc : tryCandidate e d (stripNonDigits t) = none := by
        rw [tryCandidate_strip_eq, hts]; rfl
      by_cases hpw : pyStartsWith (pyLower t) kw = true
      · simp [scanBefore, htc, hpw, ih, List.findSome?_cons, hts]
      · simp [scanBefore, htc, hpw, ih, List.findSome?_cons, hts]
    · have htc : tryCandidate e d (stripNonDigits t) = some (Except.ok q) := by
        rw [tryCandidate_strip_eq, hts]; rfl
      simp [scanBefore, htc, List.findSome?_cons, hts]

/-- Before-mode scan from the unanchored start state: nothing can match until
the first keyword-prefixed token is seen, and from the token after it the scan
is a first-validating-candidate search. -/
theorem scanBefore_unanchored (kw : PyStr) (e d : Nat) :
    ∀ ts : List PyStr,
      scanBefore kw e d ts none =
        Except.ok
          (match firstIdx (fun t => pyStartsWith (pyLower t) kw) ts with
           | none => none
           | some k => (ts.drop (k + 1)).findSome? fun t => tryStripped e d t) := by
  intro ts
  induction ts with
  | nil => simp [scanBefore, firstIdx]
  | cons t rest ih =>
    by_cases hpw : pyStartsWith (pyLower t) kw = true
    · simp [scanBefore, hpw, firstIdx, scanBefore_anchored]
    · rcases hfi : firstIdx (fun t2 => pyStartsWith (pyLower t2) kw) rest with _ | k
      · simp only [hfi] at ih
        simp [scanBefore, hpw, firstIdx, hfi, ih]
      · simp only [hfi] at ih
        simp [scanBefore, hpw, firstIdx, hfi, ih, List.drop_succ_cons]

/-- A string failing `str.isnumeric` cannot be a non-empty all-decimal string. -/
theorem decimal_check_false_of_not_numeric (t : PyStr) (h : pyIsNumeric t = false) :
    (!t.isEmpty && t.all fun c => (decDigitVal? c).isSome) = false := by
  cases h2 : (!t.isEmpty && t.all fun c => (decDigitVal? c).isSome) with
  | false => rfl
  | true => exact absurd (pyIsNumeric_of_decimal t h2) (by simp [h])

/-- Pointwise comparison of the code's candidate validation with the spec's:
on a raw text whose `isnumeric`-passing form is all decimal digits the two
agree (and the code cannot raise on it). -/
theorem tryCandidate_eq_spec (e d : Nat) (t : PyStr)
    (h : pyIsNumeric t = true → t.all (fun c => (decDigitVal? c).isSome) = true) :
    tryCandidate e d t = (specCandidate e d t).map Except.ok := by
  cases hnum : pyIsNumeric t with
  | false =>
    have hf := decimal_check_false_of_not_numeric t hnum
    simp only [tryCandidate, hnum, specCandidate, hf]
    simp
  | true =>
    have hdec := h hnum
    have hne : (!t.isEmpty) = true := by
      simp only [pyIsNumeric, Bool.and_eq_true] at hnum
      exact hnum.1
    have hfl := pyFloatOfNumeric_of_decimal t hne hdec
    have hcond : (!t.isEmpty && t.all fun c => (decDigitVal? c).isSome) = true := by
      simp [hne, hdec]
    by_cases hl : t.length = e
    · simp [tryCandidate, hnum, hfl, hl, specCandidate, hcond]
    · by_cases hsh : 0 < d ∧ t.length + 1 = e
      · simp [tryCandidate, hnum, hfl, hl, hsh, specCandidate, hcond]
      · simp [tryCandidate, hnum, hfl, hl, hsh, specCandidate, hcond]

/-- On token streams in which every `isnumeric`-passing raw text is a plain
decimal-digit string, the no-keyword loop equals the specified
first-match-in-scan-order search. -/
theorem scanPlain_safe_eq_spec (e d : Nat) (tokens : List PyStr)
    (hsafe : ∀ t ∈ tokens,
      pyIsNumeric t = true → t.all (fun c => (decDigitVal? c).isSome) = true) :
    scanPlain e d tokens = Except.ok (specNoKeyword e d tokens) := by
  induction tokens with
  | nil => simp [scanPlain, specNoKeyword]
  | cons t rest ih =>
    have ihr := ih fun x hx => hsafe x (List.mem_cons_of_mem _ hx)
    have hps := tryCandidate_eq_spec e d t (hsafe t (List.mem_cons_self t rest))
    rcases hc : specCandidate e d t with _ | q
    · have hps2 : tryCandidate e d t = none := by rw [hps, hc]; rfl
      simp only [specNoKeyword, List.findSome?_cons, hc] at ihr ⊢
      simpa [scanPlain, hps2] using ihr
    · have hps2 : tryCandidate e d t = some (Except.ok q) := by rw [hps, hc]; rfl
      simp only [specNoKeyword, List.findSome?_cons, hc]
      simp [scanPlain, hps2]

/-- C1 counterexample: with no keyword configured, on tokens `["1234"]` with
`expected_digits = 5` and `decimals = 2` the code takes the digit-shortfall
branch (line 233) and returns `float("1234") / 10.0 ** (2 - 1) = 123.4`,
not the claimed `12.34`. -/
theorem c1_shortfall_example_cex :
    scan [] none 5 2 [['1', '2', '3', '4']] = Except.ok (some ((1234 : ℚ) / 10)) ∧
    ¬ ((1234 : ℚ) / 10 = 1234 / 100) := by
  constructor
  · simp +decide [scan, scanPlain, tryCandidate, pyIsNumeric, pyNumericChar, decDigitVal?,
      pyFloatOfNumeric, digitsVal, List.foldl, nonDecimalNumericChar] <;> norm_num
  · norm_num

/-- C1 (amended): with no keyword configured, for the token sequence `["1234"]`
with `expected_digits = 5` and `decimals = 2`, the scan returns the found value
`123.4` — one digit short, so the code scales by `10^(decimals - 1)` as the
spec's own digit-validation rule states, not by `10^decimals`. -/
theorem c1_shortfall_example (kw : PyStr) :
    scan kw none 5 2 [['1', '2', '3', '4']] = Except.ok (some ((1234 : ℚ) / 10)) := by
  unfold scan
  rw [if_neg (by simp), if_neg (by simp)]
  simp +decide [scanPlain, tryCandidate, pyIsNumeric, pyNumericChar, decDigitVal?,
    pyFloatOfNumeric, digitsVal, List.foldl, nonDecimalNumericChar] <;> norm_num

/-- C2 (code bug): scanning `["00000"]` with `expected_digits = 5` and
`decimals = 0` validates the candidate and computes `index = 0.0`, but
`if not index: return` (line 239) treats the zero reading like the absent one:
the state stays cleared and the last-detection timestamp is not written, so
the legitimate zero result is not distinguishable from no-match. -/
theorem c2_zero_reading_discarded :
    scan [] none 5 0 [['0', '0', '0', '0', '0']] = Except.ok (some 0) ∧
    processImage [] none 5 0 ⟨some 42, some 7⟩ 99 [['0', '0', '0', '0', '0']] =
      ⟨⟨none, some 7⟩, false⟩ := by
  have hscan : scan [] none 5 0 [['0', '0', '0', '0', '0']] = Except.ok (some 0) := by
    unfold scan
    rw [if_neg (by simp), if_neg (by simp)]
    simp +decide [scanPlain, tryCandidate, pyIsNumeric, pyNumericChar, decDigitVal?,
      pyFloatOfNumeric, digitsVal, List.foldl, nonDecimalNumericChar] <;> norm_num
  exact ⟨hscan, by simp [processImage, hscan]⟩

/-- C3: for every candidate digit string (per the spec: non-empty, all decimal
digits) one character shorter than `expected_digits`, the validation rule
shared verbatim by all three scan modes produces a match precisely when
`decimals > 0`, with value `integer(d) / 10^(decimals - 1)`; with
`decimals = 0` such a candidate is never a match. -/
theorem c3_digit_shortfall_rule (e d : Nat) (v : PyStr)
    (hne : v ≠ []) (hdig : v.all Char.isDigit = true) (hlen : v.length + 1 = e) :
    ((∃ r, tryCandidate e d v = some r) ↔ 0 < d) ∧
    (0 < d →
      tryCandidate e d v = some (Except.ok ((digitsVal v : ℚ) / 10 ^ (d - 1)))) ∧
    (d = 0 → tryCandidate e d v = none) := by
  have hne2 : (!v.isEmpty) = true := by
    cases v with
    | nil => exact absurd rfl hne
    | cons c cs => rfl
  have hdec : v.all (fun c => (decDigitVal? c).isSome) = true := by
    simp only [List.all_eq_true] at hdig ⊢
    exact fun c hc => decDigitVal?_isSome_of_isDigit (hdig c hc)
  have hnum : pyIsNumeric v = true := pyIsNumeric_of_decimal v (by simp [hne2, hdec])
  have hfl := pyFloatOfNumeric_of_decimal v hne2 hdec
  have hl : ¬ v.length = e := by omega
  rcases Nat.eq_zero_or_pos d with hd | hd
  · subst hd
    have h0 : tryCandidate e 0 v = none := by simp [tryCandidate, hnum, hl]
    refine ⟨?_, ?_, fun _ => h0⟩
    · simp [h0]
    · intro hcon; exact absurd hcon (by omega)
  · have h1 : tryCandidate e d v =
        some (Except.ok ((digitsVal v : ℚ) / 10 ^ (d - 1))) := by
      simp [tryCandidate, hnum, hfl, hl, hd, hlen]
    refine ⟨?_, fun _ => h1, fun h0 => absurd h0 (by omega)⟩
    simp [h1, hd]

/-- Witness for C3 at the shortfall input `"1234"`, `expected_digits = 5`,
`decimals = 2`. -/
theorem c3_digit_shortfall_rule_witness :
    ((['1', '2', '3', '4'] : PyStr) ≠ [] ∧
      (['1', '2', '3', '4'] : PyStr).all Char.isDigit = true ∧
      (['1', '2', '3', '4'] : PyStr).length + 1 = 5) ∧
    (((∃ r, tryCandidate 5 2 ['1', '2', '3', '4'] = some r) ↔ 0 < 2) ∧
      (0 < 2 → tryCandidate 5 2 ['1', '2', '3', '4'] =
        some (Except.ok ((digitsVal ['1', '2', '3', '4'] : ℚ) / 10 ^ (2 - 1)))) ∧
      (2 = 0 → tryCandidate 5 2 ['1', '2', '3', '4'] = none)) :=
  ⟨⟨by decide, by decide, by decide⟩,
    c3_digit_shortfall_rule 5 2 ['1', '2', '3', '4'] (by decide) (by decide) (by decide)⟩

/-- C4 counterexample: After mode, keyword `"kwh"`, tokens
`["--", "kwh", "12345", "kwh"]`, `expected_digits = 5`, `decimals = 0`.  The
first keyword-prefixed token is at index 1 (index 0, `"--"`, is not
keyword-prefixed), and its preceding token strips to `""`, which validates to
nothing — yet the scan returns `12345.0`, sourced from the token preceding the
*second* keyword occurrence.  So a returned result is not always sourced from
the token immediately preceding the first keyword-prefixed token. -/
theorem c4_after_first_keyword_cex :
    scan ['k', 'w', 'h'] (some afterStr) 5 0
        [['-', '-'], ['k', 'w', 'h'], ['1', '2', '3', '4', '5'], ['k', 'w', 'h']] =
      Except.ok (some 12345) ∧
    pyStartsWith (pyLower ['-', '-']) ['k', 'w', 'h'] = false ∧
    pyStartsWith (pyLower ['k', 'w', 'h']) ['k', 'w', 'h'] = true ∧
    tryStripped 5 0 ['-', '-'] = none := by
  refine ⟨?_, by decide, by decide, by decide⟩
  simp +decide [scan, scanAfter, tryCandidate, pyIsNumeric, pyNumericChar, decDigitVal?,
    pyFloatOfNumeric, digitsVal, List.foldl, nonDecimalNumericChar, stripNonDigits,
    pyLower, pyStartsWith, afterStr, List.filter, List.isPrefixOf] <;> norm_num

/-- C4 (amended): in After mode a returned result is sourced from the token
immediately preceding the first keyword-prefixed token *whose preceding
candidate validates* (earlier keyword-prefixed tokens with a preceding token
all have non-validating stripped candidates), and a keyword-prefixed token at
the first position, having no preceding token, never yields a result. -/
theorem c4_after_mode_sourcing (kw : PyStr) (e d : Nat) (tokens : List PyStr) (v : ℚ)
    (h : scan kw (some afterStr) e d tokens = Except.ok (some v)) :
    AfterSourced kw e d tokens v := by
  unfold scan at h
  rw [if_pos rfl] at h
  cases tokens with
  | nil => simp [scanAfter] at h
  | cons t ts =>
    have h2 : scanAfter kw e d ts (some t) = Except.ok (some v) := by
      simpa [scanAfter] using h
    exact scanAfter_sourced kw e d ts t v h2

/-- Witness for C4 at After-mode tokens `["12345", "kWh"]`, keyword `"kwh"`,
`expected_digits = 5`, `decimals = 0`. -/
theorem c4_after_mode_sourcing_witness :
    scan ['k', 'w', 'h'] (some afterStr) 5 0
        [['1', '2', '3', '4', '5'], ['k', 'W', 'h']] = Except.ok (some 12345) ∧
    AfterSourced ['k', 'w', 'h'] 5 0
        [['1', '2', '3', '4', '5'], ['k', 'W', 'h']] 12345 := by
  have hscan : scan ['k', 'w', 'h'] (some afterStr) 5 0
      [['1', '2', '3', '4', '5'], ['k', 'W', 'h']] = Except.ok (some 12345) := by
    simp +decide [scan, scanAfter, tryCandidate, pyIsNumeric, pyNumericChar, decDigitVal?,
      pyFloatOfNumeric, digitsVal, List.foldl, nonDecimalNumericChar, stripNonDigits,
      pyLower, pyStartsWith, afterStr, List.filter, List.isPrefixOf] <;> norm_num
  exact ⟨hscan, c4_after_mode_sourcing ['k', 'w', 'h'] 5 0 _ 12345 hscan⟩

/-- C5: in Before mode the scan never raises and returns exactly the first
validating stripped candidate among the tokens strictly after the first
keyword-prefixed token (absent when no token is keyword-prefixed, or when none
of the following tokens validates).  This is the claim's reading: the anchor
set at the first keyword-prefixed token is only ever refreshed to a later
occurrence, never cleared, so the tokens eligible as candidates are precisely
those following a keyword-prefixed token, and non-validating candidates are
skipped with the anchor still set. -/
theorem c5_before_mode_first_following (kw : PyStr) (e d : Nat) (tokens : List PyStr) :
    scan kw (some beforeStr) e d tokens =
      Except.ok
        (match firstIdx (fun t => pyStartsWith (pyLower t) kw) tokens with
         | none => none
         | some k => (tokens.drop (k + 1)).findSome? fun t => tryStripped e d t) := by
  unfold scan
  rw [if_neg (by decide), if_pos rfl]
  exact scanBefore_unanchored kw e d tokens

/-- C6 counterexample: no-keyword mode, tokens `["½½½½½"]`,
`expected_digits = 5`, `decimals = 2`.  No token's raw text is a pure digit
string, so per the claim the result should be absent after the scan; instead
`"½½½½½"` passes `isnumeric()`, has the expected length, and `float` raises, so
the scan terminates with an exception rather than the absent result. -/
theorem c6_no_keyword_mode_cex :
    scan [] none 5 2 [['½', '½', '½', '½', '½']] = Except.error () ∧
    specNoKeyword 5 2 [['½', '½', '½', '½', '½']] = none :=
  ⟨by decide, by decide⟩

/-- C6 (amended): on every token stream free of numeric-but-not-decimal raw
texts (Python `isnumeric` and decimal-digit parsing agree on it), the
no-keyword scan matches a token exactly by the raw-text digit-validation rule,
the first such token in scan order determines the result, an exact-length
match is worth its digits divided by `10^decimals`, and the result is absent
when no token matches — i.e. the scan returns the spec-modelled first-match
search. -/
theorem c6_no_keyword_mode (kw : PyStr) (e d : Nat) (tokens : List PyStr)
    (hsafe : ∀ t ∈ tokens,
      pyIsNumeric t = true → t.all (fun c => (decDigitVal? c).isSome) = true) :
    scan kw none e d tokens = Except.ok (specNoKeyword e d tokens) := by
  unfold scan
  rw [if_neg (by simp), if_neg (by simp)]
  exact scanPlain_safe_eq_spec e d tokens hsafe

/-- Witness for C6 at tokens `["abc", "12345"]`, `expected_digits = 5`,
`decimals = 2`. -/
theorem c6_no_keyword_mode_witness :
    (∀ t ∈ [['a', 'b', 'c'], ['1', '2', '3', '4', '5']],
      pyIsNumeric t = true → t.all (fun c => (decDigitVal? c).isSome) = true) ∧
    scan [] none 5 2 [['a', 'b', 'c'], ['1', '2', '3', '4', '5']] =
      Except.ok (specNoKeyword 5 2 [['a', 'b', 'c'], ['1', '2', '3', '4', '5']]) :=
  ⟨by decide, c6_no_keyword_mode [] 5 2 _ (by decide)⟩

/-- C7 (code bug): on the token `"²²²²²"` (five superscript-two characters,
which pass `str.isnumeric` but are not decimal digits) with
`expected_digits = 5` and no keyword, the scan enters the exact-length match
branch and `float("²²²²²")` raises `ValueError`; the exception escapes
`process_image` after the state was already cleared.  So `extract` does not
return either absent or a float on every token sequence — it can raise on
malformed OCR text. -/
theorem c7_isnumeric_float_raises :
    scan [] none 5 0 [['²', '²', '²', '²', '²']] = Except.error () ∧
    processImage [] none 5 0 ⟨none, none⟩ 3 [['²', '²', '²', '²', '²']] =
      ⟨⟨none, none⟩, true⟩ :=
  ⟨by decide, by decide⟩

/-- C8: the mode dispatch compares `keyword_position` to the exact strings
`"after"` and `"before"`; any other value (e.g. `"After"`, `"BEFORE"`, an
arbitrary string, or no value) falls through to the `else` branch, which never
reads the keyword — so the scan coincides with the no-keyword scan for every
keyword. -/
theorem c8_mode_dispatch_case_sensitive (kw kw2 : PyStr) (kwPos : Option PyStr)
    (h1 : kwPos ≠ some afterStr) (h2 : kwPos ≠ some beforeStr)
    (e d : Nat) (tokens : List PyStr) :
    scan kw kwPos e d tokens = scan kw2 none e d tokens := by
  unfold scan
  rw [if_neg h1, if_neg h2, if_neg (by simp), if_neg (by simp)]

/-- Witness for C8 at `keyword_position = "After"` (capital A) with two
different keywords. -/
theorem c8_mode_dispatch_case_sensitive_witness :
    (some (['A', 'f', 't', 'e', 'r'] : PyStr) ≠ some afterStr) ∧
    (some (['A', 'f', 't', 'e', 'r'] : PyStr) ≠ some beforeStr) ∧
    scan ['k', 'w', 'h'] (some ['A', 'f', 't', 'e', 'r']) 5 0 [['1', '2', '3', '4', '5']] =
      scan [] none 5 0 [['1', '2', '3', '4', '5']] :=
  ⟨by decide, by decide,
    c8_mode_dispatch_case_sensitive ['k', 'w', 'h'] [] (some ['A', 'f', 't', 'e', 'r'])
      (by decide) (by decide) 5 0 [['1', '2', '3', '4', '5']]⟩

/-- C9: `process_image` clears the stored state at the start of every
invocation, so its outcome never depends on the previously held state value;
every invocation either leaves the state absent with the previous
last-detection timestamp untouched (no annotations, no validated match, a zero
— falsy — extracted value, or an escaping exception), or, exactly on a
validated non-zero match, publishes that value and stamps the detection
time. -/
theorem c9_process_image_state (kw : PyStr) (kwPos : Option PyStr) (e d : Nat)
    (s1 s2 : Option ℚ) (ld : Option Nat) (now : Nat) (tokens : List PyStr) :
    processImage kw kwPos e d ⟨s1, ld⟩ now tokens =
      processImage kw kwPos e d ⟨s2, ld⟩ now tokens ∧
    (((processImage kw kwPos e d ⟨s1, ld⟩ now tokens).st.state = none ∧
      (processImage kw kwPos e d ⟨s1, ld⟩ now tokens).st.lastDetection = ld) ∨
     (∃ v : ℚ, v ≠ 0 ∧ scan kw kwPos e d tokens = Except.ok (some v) ∧
      (processImage kw kwPos e d ⟨s1, ld⟩ now tokens).st = ⟨some v, some now⟩)) := by
  by_cases hlen : tokens.length = 0
  · simp [processImage, hlen]
  · rcases hscan : scan kw kwPos e d tokens with u | r
    · simp [processImage, hlen, hscan]
    · rcases r with _ | v
      · simp [processImage, hlen, hscan]
      · by_cases hv : v = 0
        · subst hv
          simp [processImage, hlen, hscan]
        · constructor
          · simp [processImage, hlen, hscan, hv]
          · exact Or.inr ⟨v, hv, rfl, by simp [processImage, hlen, hscan, hv]⟩

/-- C10: in After mode, the first element of the token sequence (the OCR
whole-text block) is an eligible previous token: when the first
keyword-prefixed token sits at index 1, the candidate validated for it is the
digit string stripped from the token at index 0, and a validating candidate
there is returned. -/
theorem c10_first_block_token_eligible (kw : PyStr) (e d : Nat) (t0 t1 : PyStr)
    (rest : List PyStr) (v : ℚ)
    (h0 : pyStartsWith (pyLower t0) kw = false)
    (h1 : pyStartsWith (pyLower t1) kw = true)
    (hv : tryStripped e d t0 = some v) :
    scan kw (some afterStr) e d (t0 :: t1 :: rest) = Except.ok (some v) := by
  have htc : tryCandidate e d (stripNonDigits t0) = some (Except.ok v) := by
    rw [tryCandidate_strip_eq, hv]; rfl
  unfold scan
  rw [if_pos rfl]
  simp [scanAfter, h1, htc]

/-- Witness for C10 at tokens `["12345", "kWh"]`, keyword `"kwh"`,
`expected_digits = 5`, `decimals = 0`. -/
theorem c10_first_block_token_eligible_witness :
    pyStartsWith (pyLower ['1', '2', '3', '4', '5']) ['k', 'w', 'h'] = false ∧
    pyStartsWith (pyLower ['k', 'W', 'h']) ['k', 'w', 'h'] = true ∧
    tryStripped 5 0 ['1', '2', '3', '4', '5'] = some 12345 ∧
    scan ['k', 'w', 'h'] (some afterStr) 5 0
        [['1', '2', '3', '4', '5'], ['k', 'W', 'h']] = Except.ok (some 12345) := by
  have hv : tryStripped 5 0 ['1', '2', '3', '4', '5'] = some 12345 := by
    simp +decide [tryStripped, okProj, tryCandidate, pyIsNumeric, pyNumericChar,
      decDigitVal?, pyFloatOfNumeric, digitsVal, List.foldl, nonDecimalNumericChar,
      stripNonDigits, List.filter] <;> norm_num
  exact ⟨by decide, by decide, hv,
    c10_first_block_token_eligible ['k', 'w', 'h'] 5 0 ['1', '2', '3', '4', '5']
      ['k', 'W', 'h'] [] 12345 (by decide) (by decide) hv⟩
